import Mathlib

/-!
Shallow embedding of the teleop control loop of
`src/src/main/cpp/Robot.cpp` (TalonSRX Position Closed-Loop example).

The only decision logic in the file is `Robot::TeleopPeriodic` (lines
75-150).  Each invocation ("tick") samples the gamepad and the motor
controller, runs the preset/joystick arbitration, appends telemetry to
the string buffer `_sb`, prints it every tenth tick, and saves the
button values for edge detection.

Modelling choices:
* C++ `double` values are modelled as `ℚ` (every literal in the file —
  `0.01`, `150`, `50`, `5.0*80*12`, … — is exact in `ℚ`, and the
  comparisons the policy makes are exact at these values).
* C++ `int` values are modelled as `ℤ`.
* The two separate `GetSelectedSensorPosition` calls (line 91 for the
  print buffer, line 118 inside the joystick branch) are two separate
  input fields, since the hardware could answer differently.
* `Set(ControlMode::Position, x)` is modelled as the emitted command of
  the tick (the source calls it at most once per tick); the Talon's
  control mode, read back by `GetControlMode()` at line 131, becomes a
  tracked boolean that turns (and stays) true once such a command has
  been issued.
* The string buffer `_sb` is modelled as a list of telemetry fields
  instead of a formatted string.
-/

namespace TalonPosition

/-- One piece of data appended to the print buffer `_sb`
(Robot.cpp lines 88-91 and 133-136). -/
inductive TelemetryField where
  | outRight (v : ℚ)
  | posRight (v : ℤ)
  | errNative (v : ℤ)
  | trg (v : ℚ)
deriving DecidableEq

/-- Everything `TeleopPeriodic` samples from the outside world in one
tick: joystick axis 1, the four raw buttons, and the motor-controller
readings (output percent, the two sensor-position reads, the closed-loop
error used for printing). -/
structure TickInput where
  rawAxis1 : ℚ
  motorOutputRight : ℚ
  button1 : Bool
  button2 : Bool
  button3 : Bool
  button4 : Bool
  /-- `GetSelectedSensorPosition` read at line 91 (print buffer). -/
  sensorPosPrint : ℤ
  /-- `GetSelectedSensorPosition` read at line 118 (joystick branch). -/
  sensorPosLoop : ℤ
  /-- `GetClosedLoopError` read at line 134. -/
  closedLoopError : ℤ
deriving DecidableEq

/-- The persistent state of the `Robot` object that `TeleopPeriodic`
reads and writes: `targetPositionRotations`, `_lastButton1/2/3`,
`_loops`, `_sb`, and the Talon's control mode (external state observed
through `GetControlMode()`). -/
structure RobotState where
  targetPositionRotations : ℚ
  lastButton1 : Bool
  lastButton2 : Bool
  lastButton3 : Bool
  loops : ℤ
  sb : List TelemetryField
  /-- True once the Talon has been given a `ControlMode::Position` command. -/
  modeIsPosition : Bool
deriving DecidableEq

/-- The observable effects of one tick: at most one position command
(`Set(ControlMode::Position, x)`), and at most one printed telemetry
line (the `printf` at line 142). -/
structure TickOutput where
  command : Option ℚ
  printedLine : Option (List TelemetryField)
deriving DecidableEq

/-- `double leftYstick = _joy->GetRawAxis(1) * -1;` (line 77). -/
def leftYstick (i : TickInput) : ℚ := i.rawAxis1 * (-1)

/-- The `!_lastButtonN && buttonN` rising-edge test (lines 94, 101, 108). -/
def risingEdge (prev cur : Bool) : Bool := !prev && cur

/-- The decision block of `TeleopPeriodic`, lines 93-128: the preset
if/else-if chain followed by the joystick sub-policy.  Returns the new
`targetPositionRotations`, the position command issued this tick (if
any), and the Talon control mode after the block. -/
def teleopBranch (s : RobotState) (i : TickInput) : ℚ × Option ℚ × Bool :=
  if risingEdge s.lastButton1 i.button1 then
    -- line 96: targetPositionRotations = 5.0 * 80 * 12
    (5.0 * 80 * 12, some (5.0 * 80 * 12), true)
  else if risingEdge s.lastButton2 i.button2 then
    -- line 103: targetPositionRotations = 10.0 * 80 * 12
    (10.0 * 80 * 12, some (10.0 * 80 * 12), true)
  else if risingEdge s.lastButton3 i.button3 then
    -- line 110: targetPositionRotations = 15.0 * 80 * 12
    (15.0 * 80 * 12, some (15.0 * 80 * 12), true)
  else
    -- lines 115-128: joystick control using position mode
    if |leftYstick i| > 0.01 then
      if s.targetPositionRotations - 50 > (i.sensorPosLoop : ℚ) ∨
         (i.sensorPosLoop : ℚ) > s.targetPositionRotations + 50 then
        (leftYstick i * 150 + (i.sensorPosLoop : ℚ),
         some (leftYstick i * 150 + (i.sensorPosLoop : ℚ)), true)
      else
        (leftYstick i * 150 + s.targetPositionRotations,
         some (leftYstick i * 150 + s.targetPositionRotations), true)
    else
      (s.targetPositionRotations, none, s.modeIsPosition)

/-- One full invocation of `Robot::TeleopPeriodic` (lines 75-150). -/
def teleopPeriodic (s : RobotState) (i : TickInput) : RobotState × TickOutput :=
  -- lines 87-91: append output percent and sensor position to _sb
  let sb1 := s.sb ++ [TelemetryField.outRight i.motorOutputRight,
                      TelemetryField.posRight i.sensorPosPrint]
  -- lines 93-128: arbitration
  let r := teleopBranch s i
  -- lines 130-137: extra fields when the Talon is in Position mode
  let sb2 := if r.2.2 then
      sb1 ++ [TelemetryField.errNative i.closedLoopError,
              TelemetryField.trg r.1]
    else sb1
  -- lines 139-144: print every ten loops, then clear _sb
  ({ targetPositionRotations := r.1,
     lastButton1 := i.button1,
     lastButton2 := i.button2,
     lastButton3 := i.button3,
     loops := if s.loops + 1 ≥ 10 then 0 else s.loops + 1,
     sb := [],
     modeIsPosition := r.2.2 },
   { command := r.2.1,
     printedLine := if s.loops + 1 ≥ 10 then some sb2 else none })

/-- The spec's `ArbiterState`: the arbitration-relevant projection of
the robot state (`targetPosition` and the three previous-button flags). -/
structure ArbiterState where
  targetPosition : ℚ
  prevButton1 : Bool
  prevButton2 : Bool
  prevButton3 : Bool
deriving DecidableEq

/-- Projection of the robot state onto the spec's `ArbiterState`. -/
def arbiterOf (s : RobotState) : ArbiterState :=
  ⟨s.targetPositionRotations, s.lastButton1, s.lastButton2, s.lastButton3⟩

end TalonPosition

namespace TalonPosition

/-! ### Projection lemmas for `teleopPeriodic` -/

/-- The new target is whatever the decision block computed. -/
theorem periodic_target (s : RobotState) (i : TickInput) :
    (teleopPeriodic s i).1.targetPositionRotations = (teleopBranch s i).1 := rfl

/-- The emitted command is whatever the decision block computed. -/
theorem periodic_command (s : RobotState) (i : TickInput) :
    (teleopPeriodic s i).2.command = (teleopBranch s i).2.1 := rfl

/-- The control mode after the tick is whatever the decision block computed. -/
theorem periodic_mode (s : RobotState) (i : TickInput) :
    (teleopPeriodic s i).1.modeIsPosition = (teleopBranch s i).2.2 := rfl

end TalonPosition

namespace TalonPosition

/-- C2.  A rising edge on button 1 forces the target to
`PRESET_1 = 4800 = 5.0 * 80 * 12` and emits exactly that command,
regardless of the joystick axis and of the prior target
(Robot.cpp lines 94-98). -/
theorem c2_button1_preset (s : RobotState) (i : TickInput)
    (hprev : s.lastButton1 = false) (hcur : i.button1 = true) :
    (teleopPeriodic s i).1.targetPositionRotations = 4800 ∧
    (teleopPeriodic s i).2.command = some 4800 ∧
    (4800 : ℚ) = 5.0 * 80 * 12 := by
  refine ⟨?_, ?_, by norm_num⟩
  · rw [periodic_target]
    norm_num [teleopBranch, risingEdge, hprev, hcur]
  · rw [periodic_command]
    norm_num [teleopBranch, risingEdge, hprev, hcur]

/-- Witness for `c2_button1_preset` at a concrete state and input. -/
theorem c2_button1_preset_witness :
    (teleopPeriodic ⟨0, false, false, false, 0, [], false⟩
        ⟨1, 0, true, false, false, false, 0, 0, 0⟩).1.targetPositionRotations = 4800 ∧
    (teleopPeriodic ⟨0, false, false, false, 0, [], false⟩
        ⟨1, 0, true, false, false, false, 0, 0, 0⟩).2.command = some 4800 ∧
    (4800 : ℚ) = 5.0 * 80 * 12 :=
  c2_button1_preset ⟨0, false, false, false, 0, [], false⟩
    ⟨1, 0, true, false, false, false, 0, 0, 0⟩ rfl rfl

/-- C7.  After every tick, whatever branch fired, the stored
previous-button flags are overwritten with this tick's raw sampled
button values (Robot.cpp lines 146-149). -/
theorem c7_prev_buttons_overwritten (s : RobotState) (i : TickInput) :
    (teleopPeriodic s i).1.lastButton1 = i.button1 ∧
    (teleopPeriodic s i).1.lastButton2 = i.button2 ∧
    (teleopPeriodic s i).1.lastButton3 = i.button3 :=
  ⟨rfl, rfl, rfl⟩

/-- C9.  `button4` is sampled (it is a field of `TickInput`, Robot.cpp
line 85) but never influences the resulting state or the outputs: two
ticks whose inputs agree everywhere except on `button4` behave
identically. -/
theorem c9_button4_noninterference (s : RobotState) (i j : TickInput)
    (h1 : i.rawAxis1 = j.rawAxis1)
    (h2 : i.motorOutputRight = j.motorOutputRight)
    (h3 : i.button1 = j.button1)
    (h4 : i.button2 = j.button2)
    (h5 : i.button3 = j.button3)
    (h6 : i.sensorPosPrint = j.sensorPosPrint)
    (h7 : i.sensorPosLoop = j.sensorPosLoop)
    (h8 : i.closedLoopError = j.closedLoopError) :
    teleopPeriodic s i = teleopPeriodic s j := by
  cases i
  cases j
  simp only at h1 h2 h3 h4 h5 h6 h7 h8
  subst h1 h2 h3 h4 h5 h6 h7 h8
  rfl

/-- Witness for `c9_button4_noninterference`: flipping only `button4`
changes nothing. -/
theorem c9_button4_noninterference_witness :
    teleopPeriodic ⟨100, false, false, false, 0, [], false⟩
        ⟨1, 0, false, false, false, false, 7, 7, 0⟩ =
      teleopPeriodic ⟨100, false, false, false, 0, [], false⟩
        ⟨1, 0, false, false, false, true, 7, 7, 0⟩ :=
  c9_button4_noninterference ⟨100, false, false, false, 0, [], false⟩
    ⟨1, 0, false, false, false, false, 7, 7, 0⟩
    ⟨1, 0, false, false, false, true, 7, 7, 0⟩
    rfl rfl rfl rfl rfl rfl rfl rfl

/-- C10.  `targetPositionRotations` is declared without an initializer
(Robot.cpp line 36) and is read by the joystick branch before any
preset has set it.  In the model the initial value is therefore a free
parameter, and it is observable: there are two initial target values
under which the same single tick — no buttons pressed, no rising
edge possible, `|leftYstick| > 0.01` — emits different position
commands. -/
theorem c10_uninitialized_target_observable :
    ∃ t₁ t₂ : ℚ,
      risingEdge (false : Bool) false = false ∧
      |leftYstick ⟨-1/2, 0, false, false, false, false, 0, 0, 0⟩| > 0.01 ∧
      (teleopPeriodic ⟨t₁, false, false, false, 0, [], false⟩
          ⟨-1/2, 0, false, false, false, false, 0, 0, 0⟩).2.command ≠
        (teleopPeriodic ⟨t₂, false, false, false, 0, [], false⟩
          ⟨-1/2, 0, false, false, false, false, 0, 0, 0⟩).2.command := by
  refine ⟨0, 10, rfl, by norm_num [leftYstick, abs_of_pos], ?_⟩
  rw [periodic_command, periodic_command]
  norm_num [teleopBranch, risingEdge, leftYstick, abs_of_pos]

end TalonPosition

namespace TalonPosition

/-- When no preset button has a rising edge and the joystick is outside
the deadband, the decision block takes the joystick sub-policy with the
window test of line 119. -/
theorem teleopBranch_joystick (s : RobotState) (i : TickInput)
    (h1 : risingEdge s.lastButton1 i.button1 = false)
    (h2 : risingEdge s.lastButton2 i.button2 = false)
    (h3 : risingEdge s.lastButton3 i.button3 = false)
    (h4 : |leftYstick i| > 0.01) :
    teleopBranch s i =
      if s.targetPositionRotations - 50 > (i.sensorPosLoop : ℚ) ∨
         (i.sensorPosLoop : ℚ) > s.targetPositionRotations + 50 then
        (leftYstick i * 150 + (i.sensorPosLoop : ℚ),
         some (leftYstick i * 150 + (i.sensorPosLoop : ℚ)), true)
      else
        (leftYstick i * 150 + s.targetPositionRotations,
         some (leftYstick i * 150 + s.targetPositionRotations), true) := by
  simp only [teleopBranch, h1, h2, h3, Bool.false_eq_true, if_false]
  rw [if_pos h4]

/-- When no preset button has a rising edge and the joystick is inside
the deadband, the decision block changes nothing and issues no command. -/
theorem teleopBranch_quiet (s : RobotState) (i : TickInput)
    (h1 : risingEdge s.lastButton1 i.button1 = false)
    (h2 : risingEdge s.lastButton2 i.button2 = false)
    (h3 : risingEdge s.lastButton3 i.button3 = false)
    (h4 : ¬ (|leftYstick i| > 0.01)) :
    teleopBranch s i = (s.targetPositionRotations, none, s.modeIsPosition) := by
  simp only [teleopBranch, h1, h2, h3, Bool.false_eq_true, if_false]
  rw [if_neg h4]

/-- C1.  With no preset rising edge and `|leftYstick| > 0.01`, the tick
re-anchors to the sensor position when `currentPos` lies strictly
outside `[target - 50, target + 50]`, accumulates on the previous
target otherwise (boundary values included), and in both cases emits
the new target (Robot.cpp lines 117-127).  The last two conjuncts are
the claim's boundary instances at `target = 1000`. -/
theorem c1_joystick_window (s : RobotState) (i : TickInput)
    (h1 : risingEdge s.lastButton1 i.button1 = false)
    (h2 : risingEdge s.lastButton2 i.button2 = false)
    (h3 : risingEdge s.lastButton3 i.button3 = false)
    (h4 : |leftYstick i| > 0.01) :
    ((s.targetPositionRotations - 50 > (i.sensorPosLoop : ℚ) ∨
      (i.sensorPosLoop : ℚ) > s.targetPositionRotations + 50) →
        (teleopPeriodic s i).1.targetPositionRotations =
          leftYstick i * 150 + (i.sensorPosLoop : ℚ)) ∧
    (¬ (s.targetPositionRotations - 50 > (i.sensorPosLoop : ℚ) ∨
        (i.sensorPosLoop : ℚ) > s.targetPositionRotations + 50) →
        (teleopPeriodic s i).1.targetPositionRotations =
          leftYstick i * 150 + s.targetPositionRotations) ∧
    (teleopPeriodic s i).2.command =
      some ((teleopPeriodic s i).1.targetPositionRotations) ∧
    (s.targetPositionRotations = 1000 → i.sensorPosLoop = 949 →
      (teleopPeriodic s i).1.targetPositionRotations = leftYstick i * 150 + 949) ∧
    (s.targetPositionRotations = 1000 → i.sensorPosLoop = 950 →
      (teleopPeriodic s i).1.targetPositionRotations = leftYstick i * 150 + 1000) := by
  rw [periodic_target, periodic_command,
    teleopBranch_joystick s i h1 h2 h3 h4]
  by_cases hw : s.targetPositionRotations - 50 > (i.sensorPosLoop : ℚ) ∨
      (i.sensorPosLoop : ℚ) > s.targetPositionRotations + 50
  · rw [if_pos hw]
    refine ⟨fun _ => rfl, fun hc => absurd hw hc, rfl, ?_, ?_⟩
    · intro ht hp
      rw [hp]
      norm_num
    · intro ht hp
      rw [ht, hp] at hw
      norm_num at hw
  · rw [if_neg hw]
    refine ⟨fun hc => absurd hc hw, fun _ => rfl, rfl, ?_, ?_⟩
    · intro ht hp
      rw [ht, hp] at hw
      norm_num at hw
    · intro ht _
      rw [ht]

/-- Witness for `c1_joystick_window`: target 1000, sensor 949,
`leftYstick = 1/2`. -/
theorem c1_joystick_window_witness :
    ((1000 : ℚ) - 50 > ((949 : ℤ) : ℚ) ∨ ((949 : ℤ) : ℚ) > 1000 + 50) ∧
    (teleopPeriodic ⟨1000, false, false, false, 0, [], false⟩
        ⟨-1/2, 0, false, false, false, false, 949, 949, 0⟩).1.targetPositionRotations =
      leftYstick ⟨-1/2, 0, false, false, false, false, 949, 949, 0⟩ * 150 + ((949 : ℤ) : ℚ) := by
  have h := c1_joystick_window ⟨1000, false, false, false, 0, [], false⟩
    ⟨-1/2, 0, false, false, false, false, 949, 949, 0⟩
    rfl rfl rfl (by norm_num [leftYstick, abs_of_pos])
  exact ⟨by norm_num, h.1 (by norm_num)⟩

/-- C3.  The decision block is a strict if/else-if priority chain
1 → 2 → 3 → joystick: a rising edge on button 1 wins outright (even if
button 2 also has a rising edge), button 2 fires only without a
button-1 edge, button 3 only without button-1 and button-2 edges; the
presets are pairwise distinct, so the emitted command under a
button-1 edge is never `PRESET_2` (Robot.cpp lines 94-128). -/
theorem c3_priority_order (s : RobotState) (i : TickInput) :
    (risingEdge s.lastButton1 i.button1 = true →
      (teleopPeriodic s i).1.targetPositionRotations = 4800 ∧
      (teleopPeriodic s i).2.command = some 4800 ∧
      (teleopPeriodic s i).2.command ≠ some 9600) ∧
    (risingEdge s.lastButton1 i.button1 = false →
     risingEdge s.lastButton2 i.button2 = true →
      (teleopPeriodic s i).1.targetPositionRotations = 9600 ∧
      (teleopPeriodic s i).2.command = some 9600) ∧
    (risingEdge s.lastButton1 i.button1 = false →
     risingEdge s.lastButton2 i.button2 = false →
     risingEdge s.lastButton3 i.button3 = true →
      (teleopPeriodic s i).1.targetPositionRotations = 14400 ∧
      (teleopPeriodic s i).2.command = some 14400) := by
  refine ⟨fun e1 => ?_, fun e1 e2 => ?_, fun e1 e2 e3 => ?_⟩
  · rw [periodic_target, periodic_command]
    norm_num [teleopBranch, e1]
  · rw [periodic_target, periodic_command]
    norm_num [teleopBranch, e1, e2]
  · rw [periodic_target, periodic_command]
    norm_num [teleopBranch, e1, e2, e3]

/-- Witness for `c3_priority_order`: buttons 1 and 2 both newly
pressed — the tick emits `PRESET_1 = 4800`, not `PRESET_2 = 9600`. -/
theorem c3_priority_order_witness :
    risingEdge (false : Bool) true = true ∧
    (teleopPeriodic ⟨0, false, false, false, 0, [], false⟩
        ⟨0, 0, true, true, false, false, 0, 0, 0⟩).1.targetPositionRotations = 4800 ∧
    (teleopPeriodic ⟨0, false, false, false, 0, [], false⟩
        ⟨0, 0, true, true, false, false, 0, 0, 0⟩).2.command = some 4800 ∧
    (teleopPeriodic ⟨0, false, false, false, 0, [], false⟩
        ⟨0, 0, true, true, false, false, 0, 0, 0⟩).2.command ≠ some 9600 := by
  have h := (c3_priority_order ⟨0, false, false, false, 0, [], false⟩
    ⟨0, 0, true, true, false, false, 0, 0, 0⟩).1 rfl
  exact ⟨rfl, h.1, h.2.1, h.2.2⟩

end TalonPosition

namespace TalonPosition

/-- C4.  With no preset rising edge and the joystick inside the
deadband `(-0.01, 0.01)`, the tick issues no command and leaves the
target untouched; and in general the target only ever changes through
a preset rising edge or a joystick deflection with `|leftYstick| >
0.01` (Robot.cpp lines 115-128). -/
theorem c4_deadband_no_drift (s : RobotState) (i : TickInput) :
    (risingEdge s.lastButton1 i.button1 = false →
     risingEdge s.lastButton2 i.button2 = false →
     risingEdge s.lastButton3 i.button3 = false →
     -0.01 < leftYstick i → leftYstick i < 0.01 →
       (teleopPeriodic s i).2.command = none ∧
       (teleopPeriodic s i).1.targetPositionRotations = s.targetPositionRotations) ∧
    ((teleopPeriodic s i).1.targetPositionRotations ≠ s.targetPositionRotations →
       risingEdge s.lastButton1 i.button1 = true ∨
       risingEdge s.lastButton2 i.button2 = true ∨
       risingEdge s.lastButton3 i.button3 = true ∨
       |leftYstick i| > 0.01) := by
  constructor
  · intro h1 h2 h3 hlo hhi
    have h4 : ¬ (|leftYstick i| > 0.01) := by
      rw [not_lt, abs_le]
      constructor <;> linarith
    rw [periodic_command, periodic_target, teleopBranch_quiet s i h1 h2 h3 h4]
    exact ⟨rfl, rfl⟩
  · intro hch
    by_contra hno
    push_neg at hno
    obtain ⟨h1, h2, h3, h4⟩ := hno
    simp only [ne_eq, Bool.not_eq_true] at h1 h2 h3
    rw [periodic_target, teleopBranch_quiet s i h1 h2 h3 (not_lt.mpr h4)] at hch
    exact hch rfl

/-- Witness for `c4_deadband_no_drift` at a centered joystick
(`leftYstick = 0.005`) with no buttons pressed. -/
theorem c4_deadband_no_drift_witness :
    (teleopPeriodic ⟨777, false, false, false, 0, [], false⟩
        ⟨-1/200, 0, false, false, false, false, 3, 3, 0⟩).2.command = none ∧
    (teleopPeriodic ⟨777, false, false, false, 0, [], false⟩
        ⟨-1/200, 0, false, false, false, false, 3, 3, 0⟩).1.targetPositionRotations = 777 :=
  (c4_deadband_no_drift ⟨777, false, false, false, 0, [], false⟩
      ⟨-1/200, 0, false, false, false, false, 3, 3, 0⟩).1
    rfl rfl rfl (by norm_num [leftYstick]) (by norm_num [leftYstick])

/-- C5.  Two-tick scenario from any state whose stored button-2 flag
is false: tick 1 (button 2 pressed, button 1 and 3 released) sets and
emits 9600; tick 2 (all buttons released, `leftYstick = 1/2`, sensor
at 9600, inside the ±50 window) accumulates to and emits 9675
(Robot.cpp lines 101-105 and 117-127). -/
theorem c5_two_tick_scenario (s : RobotState) (h2 : s.lastButton2 = false) :
    (teleopPeriodic s ⟨0, 0, false, true, false, false, 0, 0, 0⟩).1.targetPositionRotations
        = 9600 ∧
    (teleopPeriodic s ⟨0, 0, false, true, false, false, 0, 0, 0⟩).2.command = some 9600 ∧
    (teleopPeriodic (teleopPeriodic s ⟨0, 0, false, true, false, false, 0, 0, 0⟩).1
        ⟨-1/2, 0, false, false, false, false, 9600, 9600, 0⟩).1.targetPositionRotations
        = 9675 ∧
    (teleopPeriodic (teleopPeriodic s ⟨0, 0, false, true, false, false, 0, 0, 0⟩).1
        ⟨-1/2, 0, false, false, false, false, 9600, 9600, 0⟩).2.command = some 9675 := by
  have hb : teleopBranch s ⟨0, 0, false, true, false, false, 0, 0, 0⟩ =
      (9600, some 9600, true) := by
    norm_num [teleopBranch, risingEdge, h2]
  have ht1 : (teleopPeriodic s ⟨0, 0, false, true, false, false, 0, 0, 0⟩).1.targetPositionRotations = 9600 := by
    rw [periodic_target, hb]
  have hl1 : (teleopPeriodic s ⟨0, 0, false, true, false, false, 0, 0, 0⟩).1.lastButton1 = false := rfl
  have hl2 : (teleopPeriodic s ⟨0, 0, false, true, false, false, 0, 0, 0⟩).1.lastButton2 = true := rfl
  have hl3 : (teleopPeriodic s ⟨0, 0, false, true, false, false, 0, 0, 0⟩).1.lastButton3 = false := rfl
  have hb2 : teleopBranch (teleopPeriodic s ⟨0, 0, false, true, false, false, 0, 0, 0⟩).1
      ⟨-1/2, 0, false, false, false, false, 9600, 9600, 0⟩ = (9675, some 9675, true) := by
    rw [teleopBranch_joystick _ _ (by rw [risingEdge, hl1]; rfl)
      (by rw [risingEdge, hl2]; rfl) (by rw [risingEdge, hl3]; rfl)
      (by norm_num [leftYstick, abs_of_pos]), ht1]
    norm_num [leftYstick]
  refine ⟨ht1, ?_, ?_, ?_⟩
  · rw [periodic_command, hb]
  · rw [periodic_target, hb2]
  · rw [periodic_command, hb2]

/-- Witness for `c5_two_tick_scenario` from the all-false initial
state. -/
theorem c5_two_tick_scenario_witness :
    (teleopPeriodic ⟨0, false, false, false, 0, [], false⟩
        ⟨0, 0, false, true, false, false, 0, 0, 0⟩).1.targetPositionRotations = 9600 ∧
    (teleopPeriodic ⟨0, false, false, false, 0, [], false⟩
        ⟨0, 0, false, true, false, false, 0, 0, 0⟩).2.command = some 9600 ∧
    (teleopPeriodic (teleopPeriodic ⟨0, false, false, false, 0, [], false⟩
          ⟨0, 0, false, true, false, false, 0, 0, 0⟩).1
        ⟨-1/2, 0, false, false, false, false, 9600, 9600, 0⟩).1.targetPositionRotations = 9675 ∧
    (teleopPeriodic (teleopPeriodic ⟨0, false, false, false, 0, [], false⟩
          ⟨0, 0, false, true, false, false, 0, 0, 0⟩).1
        ⟨-1/2, 0, false, false, false, false, 9600, 9600, 0⟩).2.command = some 9675 :=
  c5_two_tick_scenario ⟨0, false, false, false, 0, [], false⟩ rfl

end TalonPosition

namespace TalonPosition

/-- Line 147: the stored button-1 flag becomes this tick's sample. -/
theorem periodic_last1 (s : RobotState) (i : TickInput) :
    (teleopPeriodic s i).1.lastButton1 = i.button1 := rfl

/-- Line 148: the stored button-2 flag becomes this tick's sample. -/
theorem periodic_last2 (s : RobotState) (i : TickInput) :
    (teleopPeriodic s i).1.lastButton2 = i.button2 := rfl

/-- Line 149: the stored button-3 flag becomes this tick's sample. -/
theorem periodic_last3 (s : RobotState) (i : TickInput) :
    (teleopPeriodic s i).1.lastButton3 = i.button3 := rfl

/-- A tick whose buttons all equal their stored flags and whose stick
reads zero leaves the arbitration state (target and flags) unchanged. -/
theorem quiescent_tick (s : RobotState) (i : TickInput)
    (hb1 : i.button1 = s.lastButton1) (hb2 : i.button2 = s.lastButton2)
    (hb3 : i.button3 = s.lastButton3) (ha : leftYstick i = 0) :
    arbiterOf (teleopPeriodic s i).1 = arbiterOf s := by
  have h1 : risingEdge s.lastButton1 i.button1 = false := by
    rw [risingEdge, hb1]
    cases s.lastButton1 <;> rfl
  have h2 : risingEdge s.lastButton2 i.button2 = false := by
    rw [risingEdge, hb2]
    cases s.lastButton2 <;> rfl
  have h3 : risingEdge s.lastButton3 i.button3 = false := by
    rw [risingEdge, hb3]
    cases s.lastButton3 <;> rfl
  have h4 : ¬ (|leftYstick i| > 0.01) := by
    rw [ha]
    norm_num
  have ht : (teleopPeriodic s i).1.targetPositionRotations = s.targetPositionRotations := by
    rw [periodic_target, teleopBranch_quiet s i h1 h2 h3 h4]
  simp only [arbiterOf, ht, periodic_last1, periodic_last2, periodic_last3, hb1, hb2, hb3]

/-- C6 counterexample.  Take `targetPosition = 0`, stored flags
`(true, false, false)` (button 1 was held on the previous tick), and
run two ticks with identical all-released inputs and `leftYstick = 0`.
No button has a false→true transition on either tick (every edge test
is `risingEdge true false` or `risingEdge false false`), yet the
`ArbiterState` after the two ticks differs from the initial one: the
stored button-1 flag has been overwritten from `true` to `false`
(Robot.cpp line 147). -/
theorem c6_counterexample :
    risingEdge true false = false ∧
    risingEdge false false = false ∧
    leftYstick ⟨0, 0, false, false, false, false, 0, 0, 0⟩ = 0 ∧
    arbiterOf (teleopPeriodic (teleopPeriodic ⟨0, true, false, false, 0, [], false⟩
          ⟨0, 0, false, false, false, false, 0, 0, 0⟩).1
        ⟨0, 0, false, false, false, false, 0, 0, 0⟩).1 ≠
      arbiterOf ⟨0, true, false, false, 0, [], false⟩ := by
  refine ⟨rfl, rfl, by norm_num [leftYstick], ?_⟩
  intro h
  have hfalse : (arbiterOf (teleopPeriodic (teleopPeriodic
      ⟨0, true, false, false, 0, [], false⟩
        ⟨0, 0, false, false, false, false, 0, 0, 0⟩).1
      ⟨0, 0, false, false, false, false, 0, 0, 0⟩).1).prevButton1 = false := rfl
  rw [h] at hfalse
  exact Bool.noConfusion hfalse

/-- C6 amended.  If additionally every sampled button *equals* its
stored flag (no transition in either direction, rather than merely no
false→true transition), then a tick is truly quiescent: one tick
leaves the `ArbiterState` unchanged, and so does a second tick with
the same inputs — hence the second tick's post-state also equals the
first tick's post-state. -/
theorem c6_quiescent_two_ticks (s : RobotState) (i : TickInput)
    (hb1 : i.button1 = s.lastButton1) (hb2 : i.button2 = s.lastButton2)
    (hb3 : i.button3 = s.lastButton3) (ha : leftYstick i = 0) :
    arbiterOf (teleopPeriodic s i).1 = arbiterOf s ∧
    arbiterOf (teleopPeriodic (teleopPeriodic s i).1 i).1 = arbiterOf s := by
  have hfirst := quiescent_tick s i hb1 hb2 hb3 ha
  have hsecond := quiescent_tick (teleopPeriodic s i).1 i
    (periodic_last1 s i).symm (periodic_last2 s i).symm (periodic_last3 s i).symm ha
  exact ⟨hfirst, hsecond.trans hfirst⟩

/-- Witness for `c6_quiescent_two_ticks` at a concrete quiescent
state and input. -/
theorem c6_quiescent_two_ticks_witness :
    arbiterOf (teleopPeriodic ⟨123, true, false, false, 4, [], true⟩
        ⟨0, 0, true, false, false, false, 5, 5, 0⟩).1 =
      arbiterOf ⟨123, true, false, false, 4, [], true⟩ ∧
    arbiterOf (teleopPeriodic (teleopPeriodic ⟨123, true, false, false, 4, [], true⟩
          ⟨0, 0, true, false, false, false, 5, 5, 0⟩).1
        ⟨0, 0, true, false, false, false, 5, 5, 0⟩).1 =
      arbiterOf ⟨123, true, false, false, 4, [], true⟩ :=
  c6_quiescent_two_ticks ⟨123, true, false, false, 4, [], true⟩
    ⟨0, 0, true, false, false, false, 5, 5, 0⟩
    rfl rfl rfl (by norm_num [leftYstick])

end TalonPosition

namespace TalonPosition

/-- C8.  Telemetry bookkeeping (Robot.cpp lines 131-144): with the
tick counter in its reachable range `0..9` and the print buffer empty
at tick entry (both hold initially and are re-established every tick),
a line is printed exactly when the incremented counter reaches 10, the
counter is reset to 0 on printing and keeps the incremented value
otherwise, the buffer is empty again afterwards, and the printed line
consists of the output-percent and sensor-position fields plus — if
and only if the Talon is in position mode at the check on line 131 —
the closed-loop-error and target fields. -/
theorem c8_telemetry_every_ten (s : RobotState) (i : TickInput)
    (h0 : 0 ≤ s.loops) (h9 : s.loops ≤ 9) (hsb : s.sb = []) :
    ((teleopPeriodic s i).2.printedLine.isSome ↔ s.loops + 1 = 10) ∧
    ((teleopPeriodic s i).1.loops = if s.loops + 1 = 10 then 0 else s.loops + 1) ∧
    0 ≤ (teleopPeriodic s i).1.loops ∧ (teleopPeriodic s i).1.loops ≤ 9 ∧
    (teleopPeriodic s i).1.sb = [] ∧
    ∀ L, (teleopPeriodic s i).2.printedLine = some L →
      L = [TelemetryField.outRight i.motorOutputRight,
           TelemetryField.posRight i.sensorPosPrint] ++
          (if (teleopPeriodic s i).1.modeIsPosition then
            [TelemetryField.errNative i.closedLoopError,
             TelemetryField.trg (teleopPeriodic s i).1.targetPositionRotations]
           else []) ∧
      TelemetryField.outRight i.motorOutputRight ∈ L ∧
      TelemetryField.posRight i.sensorPosPrint ∈ L ∧
      (TelemetryField.errNative i.closedLoopError ∈ L ↔
        (teleopPeriodic s i).1.modeIsPosition = true) ∧
      (TelemetryField.trg (teleopPeriodic s i).1.targetPositionRotations ∈ L ↔
        (teleopPeriodic s i).1.modeIsPosition = true) := by
  have hiff : s.loops + 1 ≥ 10 ↔ s.loops + 1 = 10 := by omega
  by_cases hl : s.loops + 1 = 10 <;>
    cases hm : (teleopBranch s i).2.2 <;>
      simp [teleopPeriodic, hsb, hm, hl, hiff, hiff.not] <;>
        omega

end TalonPosition

namespace TalonPosition

/-- Witness for `c8_telemetry_every_ten`: counter at 9 (tenth tick),
empty buffer, button 1 newly pressed so the tick is in position mode
and the long line is printed. -/
theorem c8_telemetry_every_ten_witness :
    ((teleopPeriodic ⟨0, false, false, false, 9, [], false⟩
        ⟨0, 0, true, false, false, false, 3, 3, 7⟩).2.printedLine.isSome ↔ (9 : ℤ) + 1 = 10) ∧
    ((teleopPeriodic ⟨0, false, false, false, 9, [], false⟩
        ⟨0, 0, true, false, false, false, 3, 3, 7⟩).1.loops =
      if (9 : ℤ) + 1 = 10 then 0 else 9 + 1) ∧
    0 ≤ (teleopPeriodic ⟨0, false, false, false, 9, [], false⟩
        ⟨0, 0, true, false, false, false, 3, 3, 7⟩).1.loops ∧
    (teleopPeriodic ⟨0, false, false, false, 9, [], false⟩
        ⟨0, 0, true, false, false, false, 3, 3, 7⟩).1.loops ≤ 9 ∧
    (teleopPeriodic ⟨0, false, false, false, 9, [], false⟩
        ⟨0, 0, true, false, false, false, 3, 3, 7⟩).1.sb = [] ∧
    ∀ L, (teleopPeriodic ⟨0, false, false, false, 9, [], false⟩
        ⟨0, 0, true, false, false, false, 3, 3, 7⟩).2.printedLine = some L →
      L = [TelemetryField.outRight 0, TelemetryField.posRight 3] ++
          (if (teleopPeriodic ⟨0, false, false, false, 9, [], false⟩
              ⟨0, 0, true, false, false, false, 3, 3, 7⟩).1.modeIsPosition then
            [TelemetryField.errNative 7,
             TelemetryField.trg (teleopPeriodic ⟨0, false, false, false, 9, [], false⟩
              ⟨0, 0, true, false, false, false, 3, 3, 7⟩).1.targetPositionRotations]
           else []) ∧
      TelemetryField.outRight 0 ∈ L ∧
      TelemetryField.posRight 3 ∈ L ∧
      (TelemetryField.errNative 7 ∈ L ↔
        (teleopPeriodic ⟨0, false, false, false, 9, [], false⟩
          ⟨0, 0, true, false, false, false, 3, 3, 7⟩).1.modeIsPosition = true) ∧
      (TelemetryField.trg (teleopPeriodic ⟨0, false, false, false, 9, [], false⟩
          ⟨0, 0, true, false, false, false, 3, 3, 7⟩).1.targetPositionRotations ∈ L ↔
        (teleopPeriodic ⟨0, false, false, false, 9, [], false⟩
          ⟨0, 0, true, false, false, false, 3, 3, 7⟩).1.modeIsPosition = true) :=
  c8_telemetry_every_ten ⟨0, false, false, false, 9, [], false⟩
    ⟨0, 0, true, false, false, false, 3, 3, 7⟩ (by decide) (by decide) rfl

end TalonPosition
